import Mathlib

/-!
Verification of the GroupBuy Bot ML analytics subsystem.

Shallow embedding of core/ml/plexe_service.py and core/ml/views.py:
feature extraction, dataset building, the heuristic predictor, the
training orchestration and the two write endpoints (train, predict).
Decimals and Python floats are modelled as rationals; Python round
(banker's rounding) and int truncation are modelled explicitly.
-/

namespace GroupBuy

/-- Python round-half-to-even of a rational to the nearest integer. -/
def pyRoundInt (q : ℚ) : ℤ :=
  let f : ℤ := ⌊q⌋
  let r : ℚ := q - f
  if r < 1/2 then f
  else if 1/2 < r then f + 1
  else if f % 2 = 0 then f else f + 1

/-- Python round(x, nd): round-half-to-even at nd decimal places. -/
def pyRound (nd : ℕ) (q : ℚ) : ℚ :=
  (pyRoundInt (q * 10 ^ nd) : ℚ) / 10 ^ nd

/-- Python int(x) on a float: truncation toward zero. -/
def ratTrunc (q : ℚ) : ℤ :=
  if 0 ≤ q then ⌊q⌋ else -⌊-q⌋

/-- A value stored in a Python dict row: a string, a float or an int. -/
inductive FVal where
  | str (s : String)
  | num (q : ℚ)
  | int (n : ℤ)
deriving DecidableEq

/-- A Python dict with string keys, as an association list. -/
abbrev FeatureDict := List (String × FVal)

/-- A Procurement record as read by this subsystem (procurements.models.Procurement).
Timestamps are seconds; category carries only its name. -/
structure Procurement where
  category : Option String
  city : Option String
  target_amount : ℚ
  current_amount : ℚ
  price_per_unit : Option ℚ
  participant_count : ℤ
  created_at : ℤ
  deadline : ℤ
  status : String
  progress : ℚ
deriving DecidableEq

/-- Python (deadline - created_at).days: whole days, floored toward minus
infinity (Int division by a positive divisor is exactly floor division). -/
def daysBetween (c d : ℤ) : ℤ := (d - c) / 86400

/-- Python "p.city or unknown": None and the empty string are falsy. -/
def cityOr (c : Option String) : String :=
  match c with
  | none => "unknown"
  | some s => if s = "" then "unknown" else s

/-- Python "float(p.price_per_unit) if p.price_per_unit else 0.0": None and 0 are falsy. -/
def priceOr (c : Option ℚ) : ℚ :=
  match c with
  | none => 0
  | some q => if q = 0 then 0 else q

/-- PlexeService.extract_features, from plexe_service.py. -/
def extractFeatures (p : Procurement) : FeatureDict :=
  [ ("category", FVal.str (match p.category with | some n => n | none => "unknown")),
    ("city", FVal.str (cityOr p.city)),
    ("target_amount", FVal.num p.target_amount),
    ("participant_count", FVal.int p.participant_count),
    ("days_active", FVal.int (max 0 (daysBetween p.created_at p.deadline))),
    ("price_per_unit", FVal.num (priceOr p.price_per_unit)),
    ("current_amount", FVal.num p.current_amount),
    ("progress", FVal.num p.progress) ]

/-- The row appended per record by PlexeService._build_success_dataset. -/
def successRow (p : Procurement) : FeatureDict :=
  [ ("category", FVal.str (match p.category with | some n => n | none => "unknown")),
    ("city", FVal.str (cityOr p.city)),
    ("target_amount", FVal.num p.target_amount),
    ("participant_count", FVal.int p.participant_count),
    ("days_active", FVal.int (max 0 (daysBetween p.created_at p.deadline))),
    ("price_per_unit", FVal.num (priceOr p.price_per_unit)),
    ("successful", FVal.int (if p.status = "completed" then 1 else 0)) ]

/-- PlexeService._build_success_dataset: one row per record, no filtering. -/
def buildSuccessDataset (qs : List Procurement) : List FeatureDict :=
  qs.map successRow

/-- The row appended per record by PlexeService._build_demand_dataset. -/
def demandRow (p : Procurement) : FeatureDict :=
  [ ("category", FVal.str (match p.category with | some n => n | none => "unknown")),
    ("city", FVal.str (cityOr p.city)),
    ("target_amount", FVal.num p.target_amount),
    ("price_per_unit", FVal.num (priceOr p.price_per_unit)),
    ("participant_count", FVal.int p.participant_count) ]

/-- PlexeService._build_demand_dataset: one row per record, no filtering. -/
def buildDemandDataset (qs : List Procurement) : List FeatureDict :=
  qs.map demandRow

/-- Python features.get(key, default) followed by use as a number: a string
value would raise a TypeError, modelled as none. -/
def getNum (fs : FeatureDict) (k : String) (d : ℚ) : Option ℚ :=
  match fs.lookup k with
  | none => some d
  | some (FVal.num q) => some q
  | some (FVal.int n) => some (n : ℚ)
  | some (FVal.str _) => none

/-- views._heuristic_predict: (predicted_value, confidence), or none where the
Python code would raise a TypeError on a non-numeric feature value. -/
def heuristicPredict (ptype : String) (fs : FeatureDict) : Option (ℚ × ℚ) :=
  if ptype = "success_prediction" then do
    let progress0 ← getNum fs "progress" 0
    let progress := progress0 / 100
    let daysActive0 ← getNum fs "days_active" 1
    let daysActive := max 1 daysActive0
    let pcount ← getNum fs "participant_count" 0
    let score := 6/10 * progress + 3/10 * min 1 (pcount / 10)
      + 1/10 * min 1 (daysActive / 30)
    some (pyRound 4 (min 1 score), 1/2)
  else if ptype = "demand_forecast" then do
    let target ← getNum fs "target_amount" 1000
    let price0 ← getNum fs "price_per_unit" 0
    let price := if price0 = 0 then 1 else price0
    let estUnits := target / price
    let estParticipants : ℤ := max 1 (ratTrunc (estUnits / 5))
    some ((estParticipants : ℚ), 4/10)
  else do
    let target ← getNum fs "target_amount" 1000
    let pcount ← getNum fs "participant_count" 1
    let participants := max 1 pcount
    some (pyRound 2 (target / participants), 35/100)

/-- Result dict of a training run: performance, artifact_path, metadata
(metrics from the trainer and the dataset row count). -/
structure TrainResult where
  performance : ℚ
  artifact_path : String
  metrics : String
  dataset_rows : ℕ
deriving DecidableEq

/-- Python "Path(work_dir or tmp_dir)": falsy work_dir (None or empty) falls
back to the fresh temporary directory. -/
def artifactDir (tmpDir : String) (workDir : Option String) : String :=
  match workDir with
  | none => tmpDir
  | some s => if s = "" then tmpDir else s

/-- PlexeService.train_success_model. The external trainer plexe.main.main is a
parameter taking the dataset and returning (best-solution performance if any,
metrics); exceptions propagate as Except.error. -/
def trainSuccessModel (trainer : List FeatureDict → Option ℚ × String)
    (tmpDir : String) (workDir : Option String)
    (qs : List Procurement) : Except String TrainResult :=
  let df := buildSuccessDataset qs
  if df.isEmpty then
    Except.error "Not enough training data. Need completed/cancelled procurements."
  else
    let dir := artifactDir tmpDir workDir
    let (best, metrics) := trainer df
    Except.ok { performance := best.getD 0, artifact_path := dir,
                metrics := metrics, dataset_rows := df.length }

/-- PlexeService.train_demand_forecast_model, same shape as the success trainer. -/
def trainDemandModel (trainer : List FeatureDict → Option ℚ × String)
    (tmpDir : String) (workDir : Option String)
    (qs : List Procurement) : Except String TrainResult :=
  let df := buildDemandDataset qs
  if df.isEmpty then
    Except.error "Not enough training data. Need completed procurements."
  else
    let dir := artifactDir tmpDir workDir
    let (best, metrics) := trainer df
    Except.ok { performance := best.getD 0, artifact_path := dir,
                metrics := metrics, dataset_rows := df.length }

/-- The model_type choices of MLModel.ModelType. -/
def modelTypeChoices : List String :=
  ["success_prediction", "demand_forecast", "price_optimization"]

/-- Raw body of a train request (fields absent or present). -/
structure TrainBody where
  model_type : Option String
  max_iterations : Option ℤ
  work_dir : Option String
deriving DecidableEq

/-- TrainModelSerializer validation: model_type is a required choice field,
max_iterations an integer in 1..20 defaulting to 3, work_dir optional.
Errors are field-level (field name, message) pairs. -/
def validateTrain (b : TrainBody) :
    Except (List (String × String)) (String × ℤ × Option String) :=
  let mtErr : List (String × String) :=
    match b.model_type with
    | none => [("model_type", "This field is required.")]
    | some t => if modelTypeChoices.contains t then []
                else [("model_type", "is not a valid choice.")]
  let itErr : List (String × String) :=
    match b.max_iterations with
    | none => []
    | some n => if 1 ≤ n ∧ n ≤ 20 then []
                else [("max_iterations", "out of range 1..20.")]
  match b.model_type with
  | none => Except.error (mtErr ++ itErr)
  | some t =>
    if (mtErr ++ itErr).isEmpty then
      Except.ok (t, b.max_iterations.getD 3, b.work_dir)
    else
      Except.error (mtErr ++ itErr)

/-- A stored MLModel record (ml_models table). -/
structure MLModelRec where
  name : String
  model_type : String
  lifecycle : String
  intent : String
  performance : Option ℚ
  artifact_path : String
  training_metadata : List (String × String)
deriving DecidableEq

/-- Responses of the train endpoint. -/
inductive TrainOut where
  | unavailable
  | invalid (errors : List (String × String))
  | unsupported (model_type : String)
  | created (rec : MLModelRec)
  | failed (err : String)
deriving DecidableEq

/-- HTTP status code of each train response. -/
def trainStatusCode : TrainOut → ℕ
  | TrainOut.unavailable => 503
  | TrainOut.invalid _ => 400
  | TrainOut.unsupported _ => 400
  | TrainOut.created _ => 201
  | TrainOut.failed _ => 500

/-- MLModelViewSet.train, from views.py: the full decision flow of the
endpoint, returning the response and the final list of stored MLModel
records. The two service training calls are parameters (work_dir,
max_iterations ordered as in the call sites). -/
def trainView (plexeAvailable : Bool)
    (runSuccess runDemand : Option String → ℤ → Except String TrainResult)
    (body : TrainBody) (st : List MLModelRec) : TrainOut × List MLModelRec :=
  if ¬plexeAvailable then
    (TrainOut.unavailable, st)
  else
    match validateTrain body with
    | Except.error errs => (TrainOut.invalid errs, st)
    | Except.ok (modelType, maxIterations, workDirRaw) =>
      let workDir : Option String :=
        match workDirRaw with
        | none => none
        | some s => if s = "" then none else some s
      let rec0 : MLModelRec :=
        { name := "plexe-" ++ modelType, model_type := modelType,
          lifecycle := "training",
          intent := "Automated plexe training for " ++ modelType,
          performance := none, artifact_path := "", training_metadata := [] }
      if modelType = "success_prediction" ∨ modelType = "demand_forecast" then
        let result :=
          if modelType = "success_prediction" then runSuccess workDir maxIterations
          else runDemand workDir maxIterations
        match result with
        | Except.ok r =>
          let recReady :=
            { rec0 with lifecycle := "ready", performance := some r.performance,
                        artifact_path := r.artifact_path,
                        training_metadata :=
                          [("metrics", r.metrics),
                           ("dataset_rows", toString r.dataset_rows)] }
          (TrainOut.created recReady, st ++ [recReady])
        | Except.error e =>
          let recFailed :=
            { rec0 with lifecycle := "failed", training_metadata := [("error", e)] }
          (TrainOut.failed e, st ++ [recFailed])
      else
        let recFailed := { rec0 with lifecycle := "failed" }
        (TrainOut.unsupported modelType, st ++ [recFailed])

/-- Raw body of a predict request. -/
structure PredictBody where
  procurement_id : Option ℤ
  prediction_type : Option String
deriving DecidableEq

/-- PredictSerializer validation: procurement_id is a required integer,
prediction_type a choice field defaulting to success_prediction. -/
def validatePredict (b : PredictBody) :
    Except (List (String × String)) (ℤ × String) :=
  let pidErr : List (String × String) :=
    match b.procurement_id with
    | none => [("procurement_id", "This field is required.")]
    | some _ => []
  let ptErr : List (String × String) :=
    match b.prediction_type with
    | none => []
    | some t => if modelTypeChoices.contains t then []
                else [("prediction_type", "is not a valid choice.")]
  match b.procurement_id with
  | none => Except.error (pidErr ++ ptErr)
  | some pid =>
    if (pidErr ++ ptErr).isEmpty then
      Except.ok (pid, b.prediction_type.getD "success_prediction")
    else
      Except.error (pidErr ++ ptErr)

/-- A stored ProcurementPrediction record (procurement_predictions table). -/
structure PredictionRec where
  procurement_id : ℤ
  prediction_type : String
  predicted_value : ℚ
  confidence : ℚ
  input_features : FeatureDict
deriving DecidableEq

/-- Responses of the predict endpoint. -/
inductive PredictOut where
  | invalid (errors : List (String × String))
  | notFound
  | created (rec : PredictionRec)
  | internalError
deriving DecidableEq

/-- HTTP status code of each predict response. -/
def predictStatusCode : PredictOut → ℕ
  | PredictOut.invalid _ => 400
  | PredictOut.notFound => 404
  | PredictOut.created _ => 201
  | PredictOut.internalError => 500

/-- ProcurementPredictionViewSet.predict, from views.py: validate, look the
procurement up (get_object_or_404), extract features, run the heuristic and
store a new prediction record. -/
def predictView (procs : List (ℤ × Procurement)) (body : PredictBody)
    (st : List PredictionRec) : PredictOut × List PredictionRec :=
  match validatePredict body with
  | Except.error errs => (PredictOut.invalid errs, st)
  | Except.ok (pid, ptype) =>
    match procs.lookup pid with
    | none => (PredictOut.notFound, st)
    | some p =>
      let features := extractFeatures p
      match heuristicPredict ptype features with
      | none => (PredictOut.internalError, st)
      | some (v, c) =>
        let rec0 : PredictionRec :=
          { procurement_id := pid, prediction_type := ptype,
            predicted_value := v, confidence := c, input_features := features }
        (PredictOut.created rec0, st ++ [rec0])

/-! ### Evaluation and bound lemmas for the Python-style rounding -/

lemma floor_eval (q : ℚ) (n : ℤ) (h1 : (n : ℚ) ≤ q) (h2 : q < n + 1) : ⌊q⌋ = n :=
  Int.floor_eq_iff.mpr ⟨h1, h2⟩

lemma pyRoundInt_of_floor (q : ℚ) (n : ℤ) (hf : ⌊q⌋ = n) (hr : q - n < 1/2) :
    pyRoundInt q = n := by
  simp only [pyRoundInt, hf]
  rw [if_pos hr]

lemma pyRound_eval (d : ℕ) (q : ℚ) (n : ℤ) (h1 : (n : ℚ) ≤ q * 10 ^ d)
    (h2 : q * 10 ^ d - n < 1/2) : pyRound d q = n / 10 ^ d := by
  have hf : ⌊q * 10 ^ d⌋ = n := floor_eval _ _ h1 (by linarith)
  rw [pyRound, pyRoundInt_of_floor _ _ hf h2]

lemma pyRoundInt_nonneg (q : ℚ) (h : 0 ≤ q) : 0 ≤ pyRoundInt q := by
  have h0 : (0 : ℤ) ≤ ⌊q⌋ := Int.floor_nonneg.mpr h
  simp only [pyRoundInt]
  split_ifs <;> omega

lemma pyRoundInt_le (q : ℚ) (n : ℤ) (h : q ≤ (n : ℚ)) : pyRoundInt q ≤ n := by
  have hfl : ⌊q⌋ ≤ n := by
    have h' := Int.floor_mono h
    rwa [Int.floor_intCast] at h'
  have hq : (⌊q⌋ : ℚ) ≤ q := Int.floor_le q
  simp only [pyRoundInt]
  split_ifs with h1 h2 h3
  · exact hfl
  all_goals {
    have hh : (1 : ℚ)/2 ≤ q - ⌊q⌋ := not_lt.mp h1
    have hlt : (⌊q⌋ : ℚ) < (n : ℚ) := by linarith
    have : ⌊q⌋ < n := by exact_mod_cast hlt
    omega }

lemma pyRound_nonneg (d : ℕ) (q : ℚ) (h : 0 ≤ q) : 0 ≤ pyRound d q := by
  have h1 : (0 : ℤ) ≤ pyRoundInt (q * 10 ^ d) :=
    pyRoundInt_nonneg _ (by positivity)
  have h2 : (0 : ℚ) ≤ (pyRoundInt (q * 10 ^ d) : ℚ) := by exact_mod_cast h1
  rw [pyRound]
  positivity

lemma pyRound_le_one (d : ℕ) (q : ℚ) (h : q ≤ 1) : pyRound d q ≤ 1 := by
  have h1 : pyRoundInt (q * 10 ^ d) ≤ ((10 : ℤ) ^ d) := by
    refine pyRoundInt_le _ _ ?_
    push_cast
    calc q * 10 ^ d ≤ 1 * 10 ^ d := by
          refine mul_le_mul_of_nonneg_right h (by positivity)
      _ = 10 ^ d := one_mul _
  rw [pyRound, div_le_one (by positivity)]
  exact_mod_cast h1

/-! ### Branch evaluation lemmas for the heuristic predictor -/

lemma heuristic_success_eval (fs : FeatureDict) (p d c : ℚ)
    (hp : getNum fs "progress" 0 = some p)
    (hd : getNum fs "days_active" 1 = some d)
    (hc : getNum fs "participant_count" 0 = some c) :
    heuristicPredict "success_prediction" fs =
      some (pyRound 4 (min 1 (6/10 * (p / 100) + 3/10 * min 1 (c / 10)
        + 1/10 * min 1 (max 1 d / 30))), 1/2) := by
  simp [heuristicPredict, hp, hd, hc]

lemma heuristic_demand_eval (fs : FeatureDict) (t p : ℚ)
    (ht : getNum fs "target_amount" 1000 = some t)
    (hp : getNum fs "price_per_unit" 0 = some p) :
    heuristicPredict "demand_forecast" fs =
      some (((max 1 (ratTrunc (t / (if p = 0 then 1 else p) / 5)) : ℤ) : ℚ),
        4/10) := by
  simp [heuristicPredict, ht, hp]

lemma heuristic_price_eval (k : String) (fs : FeatureDict) (t c : ℚ)
    (hk1 : k ≠ "success_prediction") (hk2 : k ≠ "demand_forecast")
    (ht : getNum fs "target_amount" 1000 = some t)
    (hc : getNum fs "participant_count" 1 = some c) :
    heuristicPredict k fs = some (pyRound 2 (t / max 1 c), 35/100) := by
  simp [heuristicPredict, hk1, hk2, ht, hc]

/-! ### Claims about the heuristic predictor -/

/-- C1 (amended): for every feature mapping whose progress, participant_count
and days_active values are nonnegative numbers (progress defaulting to 0,
days_active to 1, participant_count to 0 when missing), the success branch of
the heuristic returns (round(min(1, 0.6*(progress/100) +
0.3*min(1, participant_count/10) + 0.1*min(1, max(1, days_active)/30)), 4),
0.5) — days_active is clamped below by 1 before the time-ratio term — and in
particular for progress 30, participant_count 6, days_active 15 it returns
(0.41, 0.5). -/
theorem success_prediction_formula :
    (∀ (fs : FeatureDict) (p d c : ℚ),
      getNum fs "progress" 0 = some p → 0 ≤ p →
      getNum fs "days_active" 1 = some d → 0 ≤ d →
      getNum fs "participant_count" 0 = some c → 0 ≤ c →
      heuristicPredict "success_prediction" fs =
        some (pyRound 4 (min 1 (6/10 * (p / 100) + 3/10 * min 1 (c / 10)
          + 1/10 * min 1 (max 1 d / 30))), 1/2)) ∧
    heuristicPredict "success_prediction"
      [("progress", FVal.num 30), ("participant_count", FVal.int 6),
       ("days_active", FVal.int 15)] = some (41/100, 1/2) := by
  constructor
  · intro fs p d c hp _ hd _ hc _
    exact heuristic_success_eval fs p d c hp hd hc
  · rw [heuristic_success_eval _ 30 15 6 (by decide) (by decide) (by decide)]
    norm_num [min_def, max_def]
    rw [pyRound_eval 4 (41/100) 4100 (by norm_num) (by norm_num)]
    norm_num

/-- C1 witness: the general formula applied to the spec example
(progress 30, participant_count 6, days_active 15). -/
theorem success_prediction_formula_witness :
    heuristicPredict "success_prediction"
      [("progress", FVal.num 30), ("participant_count", FVal.int 6),
       ("days_active", FVal.int 15)] =
      some (pyRound 4 (min 1 (6/10 * ((30:ℚ) / 100) + 3/10 * min 1 ((6:ℚ) / 10)
        + 1/10 * min 1 (max 1 (15:ℚ) / 30))), 1/2) :=
  success_prediction_formula.1 _ 30 15 6 (by decide) (by norm_num) (by decide)
    (by norm_num) (by decide) (by norm_num)

/-- C1 counterexample: at days_active = 0 (progress and participant_count
defaulting to 0) the code returns 0.0033, not the claimed
round(min(1, 0.6*(0/100) + 0.3*min(1, 0/10) + 0.1*min(1, 0/30)), 4) = 0,
because the code clamps days_active below by 1 before dividing by 30. -/
theorem success_prediction_claim_ce :
    heuristicPredict "success_prediction" [("days_active", FVal.int 0)] ≠
      some (pyRound 4 (min 1 (6/10 * ((0:ℚ) / 100) + 3/10 * min 1 ((0:ℚ) / 10)
        + 1/10 * min 1 ((0:ℚ) / 30))), 1/2) := by
  have hL : heuristicPredict "success_prediction" [("days_active", FVal.int 0)]
      = some (33/10000, 1/2) := by
    rw [heuristic_success_eval _ 0 0 0 (by decide) (by decide) (by decide)]
    norm_num [min_def, max_def]
    rw [pyRound_eval 4 (1/300) 33 (by norm_num) (by norm_num)]
    norm_num
  have hR : pyRound 4 (min 1 (6/10 * ((0:ℚ) / 100) + 3/10 * min 1 ((0:ℚ) / 10)
      + 1/10 * min 1 ((0:ℚ) / 30))) = 0 := by
    norm_num [min_def]
    rw [pyRound_eval 4 0 0 (by norm_num) (by norm_num)]
    norm_num
  rw [hL, hR]
  norm_num

/-- C6: for nonnegative numeric target_amount (default 1000) and
price_per_unit (default 0), the demand branch raises no exception and returns
(float(max(1, floor((target_amount / (price_per_unit or 1)) / 5))), 0.4); the
value is always at least 1 and the confidence is exactly 0.4. -/
theorem demand_forecast_formula (fs : FeatureDict) (t p : ℚ)
    (ht : getNum fs "target_amount" 1000 = some t) (ht0 : 0 ≤ t)
    (hp : getNum fs "price_per_unit" 0 = some p) (hp0 : 0 ≤ p) :
    heuristicPredict "demand_forecast" fs =
      some (((max 1 ⌊t / (if p = 0 then 1 else p) / 5⌋ : ℤ) : ℚ), 4/10) ∧
    1 ≤ ((max 1 ⌊t / (if p = 0 then 1 else p) / 5⌋ : ℤ) : ℚ) := by
  have hpos : 0 < (if p = 0 then 1 else p) := by
    split_ifs with h
    · norm_num
    · exact lt_of_le_of_ne hp0 (Ne.symm h)
  have harg : 0 ≤ t / (if p = 0 then 1 else p) / 5 := by positivity
  have htr : ratTrunc (t / (if p = 0 then 1 else p) / 5)
      = ⌊t / (if p = 0 then 1 else p) / 5⌋ := by
    rw [ratTrunc, if_pos harg]
  constructor
  · rw [heuristic_demand_eval fs t p ht hp, htr]
  · exact_mod_cast le_max_left 1 _

/-- C6 witness: the demand formula applied to the empty feature mapping
(target_amount defaults to 1000, price_per_unit to 0, treated as 1). -/
theorem demand_forecast_formula_witness :
    heuristicPredict "demand_forecast" ([] : FeatureDict) =
      some (((max 1 ⌊(1000:ℚ) / (if (0:ℚ) = 0 then 1 else 0) / 5⌋ : ℤ) : ℚ),
        4/10) ∧
    1 ≤ ((max 1 ⌊(1000:ℚ) / (if (0:ℚ) = 0 then 1 else 0) / 5⌋ : ℤ) : ℚ) :=
  demand_forecast_formula [] 1000 0 (by decide) (by norm_num) (by decide)
    (by norm_num)

/-- C7 (amended): for every prediction kind other than success_prediction and
demand_forecast, positive numeric target_amount (default 1000) and integer
participant_count (default 1), the fallback branch returns
(round(target_amount / max(1, participant_count), 2), 0.35); the value is
nonnegative (it can be exactly 0 for small positive targets, so it is not
always positive). -/
theorem price_fallback_formula (k : String) (fs : FeatureDict) (t c : ℚ)
    (hk1 : k ≠ "success_prediction") (hk2 : k ≠ "demand_forecast")
    (ht : getNum fs "target_amount" 1000 = some t) (ht0 : 0 < t)
    (hc : getNum fs "participant_count" 1 = some c)
    (hcz : ∃ n : ℤ, c = (n : ℚ)) :
    heuristicPredict k fs = some (pyRound 2 (t / max 1 c), 35/100) ∧
    0 ≤ pyRound 2 (t / max 1 c) := by
  refine ⟨heuristic_price_eval k fs t c hk1 hk2 ht hc, ?_⟩
  have h1 : (0:ℚ) < max 1 c := lt_of_lt_of_le zero_lt_one (le_max_left 1 c)
  exact pyRound_nonneg _ _ (le_of_lt (div_pos ht0 h1))

/-- C7 witness: the fallback formula applied to kind price_optimization with
target_amount 0.001 and participant_count missing. -/
theorem price_fallback_formula_witness :
    heuristicPredict "price_optimization"
      [("target_amount", FVal.num (1/1000))] =
      some (pyRound 2 ((1/1000 : ℚ) / max 1 1), 35/100) ∧
    0 ≤ pyRound 2 ((1/1000 : ℚ) / max 1 1) :=
  price_fallback_formula "price_optimization" _ (1/1000) 1 (by decide)
    (by decide) (by rfl) (by norm_num) (by rfl) ⟨1, by norm_num⟩

/-- C7 counterexample: with target_amount 0.001 (positive) and
participant_count defaulting to 1, the fallback branch returns exactly 0,
which is not positive, refuting the positivity part of the claim. -/
theorem price_fallback_claim_ce :
    heuristicPredict "price_optimization"
      [("target_amount", FVal.num (1/1000))] = some (0, 35/100) ∧
    ¬ (0 < (0:ℚ)) := by
  constructor
  · rw [heuristic_price_eval "price_optimization" _ (1/1000) 1 (by decide)
      (by decide) (by rfl) (by rfl)]
    norm_num [max_def]
    rw [pyRound_eval 2 (1/1000) 0 (by norm_num) (by norm_num)]
    norm_num
  · norm_num

/-- C8: for every feature mapping with nonnegative numeric progress,
days_active and participant_count (progress may exceed 100), the success
branch returns a value in the closed interval from 0 to 1 and confidence
exactly 0.5. -/
theorem success_prediction_bounds (fs : FeatureDict) (p d c : ℚ)
    (hp : getNum fs "progress" 0 = some p) (hp0 : 0 ≤ p)
    (hd : getNum fs "days_active" 1 = some d) (hd0 : 0 ≤ d)
    (hc : getNum fs "participant_count" 0 = some c) (hc0 : 0 ≤ c) :
    ∃ v : ℚ, heuristicPredict "success_prediction" fs = some (v, 1/2) ∧
      0 ≤ v ∧ v ≤ 1 := by
  refine ⟨_, heuristic_success_eval fs p d c hp hd hc, ?_, ?_⟩
  · refine pyRound_nonneg _ _ (le_min (by norm_num) ?_)
    have t1 : (0:ℚ) ≤ 6/10 * (p / 100) := by positivity
    have t2 : (0:ℚ) ≤ min 1 (c / 10) := le_min (by norm_num) (by positivity)
    have t3 : (0:ℚ) ≤ min 1 (max 1 d / 30) :=
      le_min (by norm_num)
        (div_nonneg (le_trans zero_le_one (le_max_left 1 d)) (by norm_num))
    linarith
  · exact pyRound_le_one _ _ (min_le_left _ _)

/-- C8 witness: bounds at the spec example mapping with progress above 100
absent concerns (progress 30, participant_count 6, days_active 15). -/
theorem success_prediction_bounds_witness :
    ∃ v : ℚ, heuristicPredict "success_prediction"
      [("progress", FVal.num 30), ("participant_count", FVal.int 6),
       ("days_active", FVal.int 15)] = some (v, 1/2) ∧ 0 ≤ v ∧ v ≤ 1 :=
  success_prediction_bounds _ 30 15 6 (by decide) (by norm_num) (by decide)
    (by norm_num) (by decide) (by norm_num)

/-! ### Claims about feature extraction and dataset building -/

/-- C3: for every procurement record (any combination of null category,
null or empty city, null price_per_unit, deadline possibly before creation)
extract_features returns a mapping with exactly the eight keys, category and
city "unknown" when absent or falsy, price_per_unit 0.0 when absent,
target_amount and price_per_unit tagged as floats, participant_count an
integer, days_active = max(0, whole days from created_at to deadline), and
days_active = 0 with no exception whenever the deadline precedes creation. -/
theorem extract_features_shape (p : Procurement) :
    (extractFeatures p).map Prod.fst =
      ["category", "city", "target_amount", "participant_count",
       "days_active", "price_per_unit", "current_amount", "progress"] ∧
    (p.category = none →
      (extractFeatures p).lookup "category" = some (FVal.str "unknown")) ∧
    ((p.city = none ∨ p.city = some "") →
      (extractFeatures p).lookup "city" = some (FVal.str "unknown")) ∧
    (p.price_per_unit = none →
      (extractFeatures p).lookup "price_per_unit" = some (FVal.num 0)) ∧
    (extractFeatures p).lookup "target_amount"
      = some (FVal.num p.target_amount) ∧
    (extractFeatures p).lookup "price_per_unit"
      = some (FVal.num (priceOr p.price_per_unit)) ∧
    (extractFeatures p).lookup "participant_count"
      = some (FVal.int p.participant_count) ∧
    (extractFeatures p).lookup "days_active"
      = some (FVal.int (max 0 (daysBetween p.created_at p.deadline))) ∧
    (p.deadline < p.created_at →
      (extractFeatures p).lookup "days_active" = some (FVal.int 0)) := by
  refine ⟨by simp [extractFeatures], ?_, ?_, ?_,
    by simp [extractFeatures, List.lookup],
    by simp [extractFeatures, List.lookup],
    by simp [extractFeatures, List.lookup],
    by simp [extractFeatures, List.lookup], ?_⟩
  · intro h
    simp [extractFeatures, List.lookup, h]
  · intro h
    rcases h with h | h <;> simp [extractFeatures, List.lookup, cityOr, h]
  · intro h
    simp [extractFeatures, List.lookup, priceOr, h]
  · intro h
    have hd : daysBetween p.created_at p.deadline ≤ 0 := by
      unfold daysBetween
      omega
    simp [extractFeatures, List.lookup, max_eq_left hd]

/-- C3 witness: a record with no category, empty city, no price and a
deadline one day before creation. -/
theorem extract_features_shape_witness :
    (extractFeatures ⟨none, some "", 100, 0, none, 5, 86400, 0, "active",
        30⟩).map Prod.fst =
      ["category", "city", "target_amount", "participant_count",
       "days_active", "price_per_unit", "current_amount", "progress"] ∧
    (extractFeatures ⟨none, some "", 100, 0, none, 5, 86400, 0, "active",
        30⟩).lookup "category" = some (FVal.str "unknown") ∧
    (extractFeatures ⟨none, some "", 100, 0, none, 5, 86400, 0, "active",
        30⟩).lookup "city" = some (FVal.str "unknown") ∧
    (extractFeatures ⟨none, some "", 100, 0, none, 5, 86400, 0, "active",
        30⟩).lookup "price_per_unit" = some (FVal.num 0) ∧
    (extractFeatures ⟨none, some "", 100, 0, none, 5, 86400, 0, "active",
        30⟩).lookup "days_active" = some (FVal.int 0) := by
  have h := extract_features_shape ⟨none, some "", 100, 0, none, 5, 86400, 0,
    "active", 30⟩
  exact ⟨h.1, h.2.1 rfl, h.2.2.1 (Or.inr rfl), h.2.2.2.1 rfl,
    h.2.2.2.2.2.2.2.2 (by decide)⟩

/-- C4: the success dataset has one row per input record (none filtered),
columns exactly category, city, target_amount, participant_count,
days_active, price_per_unit, successful, with successful = 1 exactly when the
status is completed (cancelled and all other statuses give 0); in particular
statuses completed, cancelled give two rows labelled 1, 0. -/
theorem build_success_dataset_spec :
    (∀ qs : List Procurement, (buildSuccessDataset qs).length = qs.length) ∧
    (∀ qs : List Procurement, buildSuccessDataset qs = qs.map successRow) ∧
    (∀ p : Procurement, (successRow p).map Prod.fst =
      ["category", "city", "target_amount", "participant_count",
       "days_active", "price_per_unit", "successful"]) ∧
    (∀ p : Procurement, (successRow p).lookup "successful" =
      some (FVal.int (if p.status = "completed" then 1 else 0))) ∧
    (∀ p q : Procurement, p.status = "completed" → q.status = "cancelled" →
      (buildSuccessDataset [p, q]).map (fun r => r.lookup "successful") =
        [some (FVal.int 1), some (FVal.int 0)]) := by
  refine ⟨fun qs => List.length_map _ _, fun qs => rfl,
    fun p => by simp [successRow], fun p => by simp [successRow, List.lookup],
    fun p q h1 h2 => ?_⟩
  simp [buildSuccessDataset, successRow, List.lookup, h1, h2]

/-- C4 witness: two concrete records with statuses completed and cancelled. -/
theorem build_success_dataset_spec_witness :
    (buildSuccessDataset
        [⟨some "Electronics", some "Moscow", 100, 0, some 5, 3, 0, 86400,
          "completed", 10⟩,
         ⟨some "Electronics", some "Moscow", 100, 0, some 5, 3, 0, 86400,
          "cancelled", 10⟩]).map (fun r => r.lookup "successful") =
      [some (FVal.int 1), some (FVal.int 0)] :=
  build_success_dataset_spec.2.2.2.2
    ⟨some "Electronics", some "Moscow", 100, 0, some 5, 3, 0, 86400,
      "completed", 10⟩
    ⟨some "Electronics", some "Moscow", 100, 0, some 5, 3, 0, 86400,
      "cancelled", 10⟩ rfl rfl

/-- C10: the success row of a record is the restriction of its extracted
features to the six shared keys extended with the successful label, and the
demand row agrees with the extracted features, as a mapping, on exactly its
five keys: the builders and the single-record extractor compute every shared
field by the same function of the record. -/
theorem dataset_rows_refine_extract (p : Procurement) :
    successRow p = ((extractFeatures p).filter
        (fun kv => decide (kv.1 ∈ ["category", "city", "target_amount",
          "participant_count", "days_active", "price_per_unit"]))) ++
      [("successful", FVal.int (if p.status = "completed" then 1 else 0))] ∧
    (demandRow p).map Prod.fst =
      ["category", "city", "target_amount", "price_per_unit",
       "participant_count"] ∧
    (∀ k, k ∈ (["category", "city", "target_amount", "price_per_unit",
        "participant_count"] : List String) →
      (demandRow p).lookup k = (extractFeatures p).lookup k) := by
  refine ⟨?_, by simp [demandRow], ?_⟩
  · simp [successRow, extractFeatures, List.filter]
  · intro k hk
    fin_cases hk <;> simp [demandRow, extractFeatures, List.lookup]

/-- C10 witness: shared-field agreement at a concrete record and key. -/
theorem dataset_rows_refine_extract_witness :
    (demandRow ⟨none, none, 100, 0, none, 5, 0, 86400, "active", 30⟩).lookup
        "participant_count" =
      (extractFeatures ⟨none, none, 100, 0, none, 5, 0, 86400, "active",
        30⟩).lookup "participant_count" :=
  (dataset_rows_refine_extract ⟨none, none, 100, 0, none, 5, 0, 86400,
    "active", 30⟩).2.2 "participant_count" (by decide)

/-! ### Claims about training orchestration and the endpoints -/

/-- C5: whenever the built dataset has zero rows, both training operations
fail with the not-enough-training-data error, and the external trainer is
never invoked on that run (the result does not depend on the trainer at
all). -/
theorem train_empty_dataset_errors
    (trainer₁ trainer₂ : List FeatureDict → Option ℚ × String)
    (tmp : String) (wd : Option String) (qs qs' : List Procurement)
    (h1 : (buildSuccessDataset qs).isEmpty = true)
    (h2 : (buildDemandDataset qs').isEmpty = true) :
    trainSuccessModel trainer₁ tmp wd qs = Except.error
      "Not enough training data. Need completed/cancelled procurements." ∧
    trainSuccessModel trainer₁ tmp wd qs
      = trainSuccessModel trainer₂ tmp wd qs ∧
    trainDemandModel trainer₁ tmp wd qs' = Except.error
      "Not enough training data. Need completed procurements." ∧
    trainDemandModel trainer₁ tmp wd qs'
      = trainDemandModel trainer₂ tmp wd qs' := by
  refine ⟨?_, ?_, ?_, ?_⟩ <;>
    simp [trainSuccessModel, trainDemandModel, h1, h2]

/-- C5 witness: the empty record source, under two different trainers. -/
theorem train_empty_dataset_errors_witness :
    trainSuccessModel (fun _ => (none, "")) "tmp" none [] = Except.error
      "Not enough training data. Need completed/cancelled procurements." ∧
    trainSuccessModel (fun _ => (none, "")) "tmp" none []
      = trainSuccessModel (fun _ => (some 1, "m")) "tmp" none [] ∧
    trainDemandModel (fun _ => (none, "")) "tmp" none [] = Except.error
      "Not enough training data. Need completed procurements." ∧
    trainDemandModel (fun _ => (none, "")) "tmp" none []
      = trainDemandModel (fun _ => (some 1, "m")) "tmp" none [] :=
  train_empty_dataset_errors (fun _ => (none, "")) (fun _ => (some 1, "m"))
    "tmp" none [] [] rfl rfl

/-- C2: when the train request body is rejected by validation (bad model
kind or out-of-range max_iterations), the endpoint returns a 400 response
carrying the field-level errors and the stored model records are unchanged. -/
theorem train_invalid_body_no_mutation
    (runS runD : Option String → ℤ → Except String TrainResult)
    (b : TrainBody) (st : List MLModelRec) (errs : List (String × String))
    (h : validateTrain b = Except.error errs) :
    trainView true runS runD b st = (TrainOut.invalid errs, st) ∧
    trainStatusCode (TrainOut.invalid errs) = 400 := by
  constructor
  · simp [trainView, h]
  · rfl

/-- C2 witness: a body with an unknown model kind and max_iterations 99. -/
theorem train_invalid_body_no_mutation_witness :
    trainView true (fun _ _ => Except.error "") (fun _ _ => Except.error "")
        ⟨some "bogus_kind", some 99, none⟩ [] =
      (TrainOut.invalid [("model_type", "is not a valid choice."),
        ("max_iterations", "out of range 1..20.")], []) ∧
    trainStatusCode (TrainOut.invalid [("model_type", "is not a valid choice."),
      ("max_iterations", "out of range 1..20.")]) = 400 :=
  train_invalid_body_no_mutation _ _ ⟨some "bogus_kind", some 99, none⟩ []
    [("model_type", "is not a valid choice."),
     ("max_iterations", "out of range 1..20.")] rfl

/-- C9: when a valid predict request names a procurement id that does not
exist, the endpoint returns a 404 not-found response and the stored
prediction records are unchanged. -/
theorem predict_not_found_no_record (procs : List (ℤ × Procurement))
    (b : PredictBody) (st : List PredictionRec) (pid : ℤ) (pt : String)
    (hv : validatePredict b = Except.ok (pid, pt))
    (hl : procs.lookup pid = none) :
    predictView procs b st = (PredictOut.notFound, st) ∧
    predictStatusCode PredictOut.notFound = 404 := by
  constructor
  · simp [predictView, hv, hl]
  · rfl

/-- C9 witness: id 99999 against an empty procurement table. -/
theorem predict_not_found_no_record_witness :
    predictView [] ⟨some 99999, some "success_prediction"⟩ [] =
      (PredictOut.notFound, []) ∧
    predictStatusCode PredictOut.notFound = 404 :=
  predict_not_found_no_record [] ⟨some 99999, some "success_prediction"⟩ []
    99999 "success_prediction" rfl rfl

end GroupBuy
